import Mathlib

/-!
Shallow embedding of `src/personal_assistant/services/utils/notes/record.py`:
a note `Record` (validated text, ordered tag list, optional row identifier)
persisted in a single `notes` table with a UNIQUE constraint on the `note`
column.  Database state is passed explicitly; Python exceptions are modelled
with `Except`.
-/

namespace NotesRecord

/-- Python exceptions that the module can raise. `valueError` models the
`ValueError` raised on a duplicate note (the spec calls it DuplicateNoteError);
`validationError` models failures of Text/Tag construction;
`attributeError` models Python `AttributeError`. -/
inductive PyError where
  | validationError (msg : String)
  | valueError (msg : String)
  | attributeError (msg : String)
  deriving Repr, DecidableEq

/-- Modelled from the spec: `text.py` is not under `src/`.  The spec says the
Text value wrapper validates its string (invariant: non-empty after
validation) and exposes `.value` read-only. -/
structure Text where
  value : String
  deriving Repr, DecidableEq

/-- Modelled from the spec: Text construction fails (raises a validation
error) on invalid input — the invariant is non-empty — and otherwise exposes
the value. -/
def Text.make (s : String) : Option Text :=
  if s.isEmpty then none else some ⟨s⟩

/-- Modelled from the spec: `tag.py` is not under `src/`.  The Tag value
wrapper holds a single validated tag string (invariant: non-empty). -/
structure Tag where
  value : String
  deriving Repr, DecidableEq

/-- Modelled from the spec: Tag construction fails on invalid (empty) input
and otherwise exposes the value. -/
def Tag.make (s : String) : Option Tag :=
  if s.isEmpty then none else some ⟨s⟩

/-- The `text` attribute of a Record: a validated `Text` after construction,
but a raw string after `replace_text` (which assigns `new_text` directly). -/
inductive TextField where
  | valid (t : Text)
  | raw (s : String)
  deriving Repr, DecidableEq

/-- Python attribute access `self.text.value`: succeeds on a `Text` value,
raises `AttributeError` on a raw string. -/
def TextField.valueE : TextField → Except PyError String
  | .valid t => .ok t.value
  | .raw _ => .error (.attributeError "str object has no attribute value")

/-- One row of the `notes` table: `id` primary key, `note` (UNIQUE),
`tags` (JSON-encoded list of tag strings stored as text). -/
structure ModelNotesRow where
  id : Int
  note : String
  tags : String
  deriving Repr, DecidableEq

/-- The notes table plus the auto-increment counter for primary keys. -/
structure DB where
  rows : List ModelNotesRow
  nextId : Int
  deriving Repr, DecidableEq

/-- An empty database; SQLite auto-increment identifiers start at 1. -/
def DB.empty : DB := { rows := [], nextId := 1 }

/-- Hexadecimal digit character (lowercase), as Python json uses. -/
def hexDigitChar (n : Nat) : Char :=
  if n < 10 then Char.ofNat (48 + n) else Char.ofNat (87 + n)

/-- Four-digit lowercase hexadecimal rendering of `n % 65536`. -/
def hex4 (n : Nat) : String :=
  String.mk [hexDigitChar (n / 4096 % 16), hexDigitChar (n / 256 % 16),
             hexDigitChar (n / 16 % 16), hexDigitChar (n % 16)]

/-- Escaping of one character as Python `json.dumps` (ensure_ascii=True)
renders it inside a JSON string literal. -/
def jsonEscapeChar (c : Char) : String :=
  if c = '"' then "\\\""
  else if c = '\\' then "\\\\"
  else if c = '\n' then "\\n"
  else if c = '\t' then "\\t"
  else if c = '\r' then "\\r"
  else if c.toNat = 8 then "\\b"
  else if c.toNat = 12 then "\\f"
  else if 32 ≤ c.toNat ∧ c.toNat ≤ 126 then String.singleton c
  else if c.toNat ≤ 65535 then "\\u" ++ hex4 c.toNat
  else
    "\\u" ++ hex4 (55296 + (c.toNat - 65536) / 1024) ++
    "\\u" ++ hex4 (56320 + (c.toNat - 65536) % 1024)

/-- A JSON string literal for `s`, as Python `json.dumps` renders it. -/
def jsonEncodeStr (s : String) : String :=
  "\"" ++ String.join (s.toList.map jsonEscapeChar) ++ "\""

/-- Python `json.dumps` on a list of strings: with default separators the
elements are joined by a comma and a space inside square brackets. -/
def jsonDumps (xs : List String) : String :=
  "[" ++ String.intercalate ", " (xs.map jsonEncodeStr) ++ "]"

/-- The `str(e.orig)` text of the SQLite uniqueness violation that
`Record.__save` compares against. -/
def uniqueConstraintOrigMsg : String := "UNIQUE constraint failed: notes.note"

/-- The message of the ValueError raised on a duplicate note.  In the source
it is two adjacent f-string literals, which Python concatenates with no
separator, and the command name is written in angle brackets. -/
def duplicateNoteMsg : String :=
  "A note with this text already exists." ++
  "To change an existing note, use the <change-note> command."

/-- The duplicate-note message as the spec words it (a space after the first
sentence and no angle brackets around the command name); kept separate to
compare with `duplicateNoteMsg`, the message the source builds. -/
def specDuplicateNoteMsg : String :=
  "A note with this text already exists. " ++
  "To change an existing note, use the change-note command."

/-- Committing the merge of a fresh `ModelNotes(note=..., tags=...)` row (no
primary key, hence an insert).  The UNIQUE constraint on `note` makes the
commit fail with an IntegrityError, identified by its `str(e.orig)`, when a
row with the same note text already exists; otherwise the row is appended
with the next auto-increment id. -/
def DB.commitInsert (db : DB) (note tags : String) : Except String (DB × Int) :=
  if db.rows.any (fun row => row.note == note) then
    .error uniqueConstraintOrigMsg
  else
    .ok ({ rows := db.rows ++ [{ id := db.nextId, note := note, tags := tags }],
           nextId := db.nextId + 1 }, db.nextId)

/-- SQL comparison `ModelNotes.id == self.note_id`: a NULL comparand
(`note_id` is None) matches no row. -/
def idMatches (nid : Option Int) (rowId : Int) : Bool :=
  match nid with
  | none => false
  | some i => i == rowId

/-- The in-memory Record object: `text` attribute, tag list, optional row
identifier. -/
structure Record where
  text : TextField
  tags : List Tag
  note_id : Option Int
  deriving Repr, DecidableEq

/-- Python truthiness of `self.note_id` (an Optional[int]): None and 0 are
falsy, every other integer truthy. -/
def truthyId : Option Int → Bool
  | none => false
  | some i => i != 0

/-- Wrapping of a list of raw tag strings by `[Tag(tag) for tag in tags]`:
the first invalid tag raises a validation error. -/
def wrapTags : List String → Except PyError (List Tag)
  | [] => .ok []
  | s :: rest =>
    match Tag.make s with
    | none => .error (.validationError "invalid tag")
    | some tag =>
      match wrapTags rest with
      | .error e => .error e
      | .ok tl => .ok (tag :: tl)

/-- `Record.__save` with the commit step passed in, so that integrity errors
other than the uniqueness violation can be analysed: serializes the tags to
JSON, merges the row and commits.  A uniqueness violation raises the
ValueError; any other IntegrityError is printed (returned in the log list)
and execution falls through to `self.note_id = record.id`, where the pending
row's id is still None after the failed commit. -/
def Record.saveWithCommit (r : Record) (db : DB)
    (commit : DB → String → String → Except String (DB × Int)) :
    Except PyError (Record × DB × List String) :=
  match r.text.valueE with
  | .error e => .error e
  | .ok noteVal =>
    match commit db noteVal (jsonDumps (r.tags.map Tag.value)) with
    | .error orig =>
      if orig == uniqueConstraintOrigMsg then
        .error (.valueError duplicateNoteMsg)
      else
        .ok ({ r with note_id := none }, db, [orig])
    | .ok (db2, newId) =>
      .ok ({ r with note_id := some newId }, db2, [])

/-- `Record.__save` against the real table semantics, where the only
IntegrityError the schema can produce is the uniqueness violation. -/
def Record.save (r : Record) (db : DB) : Except PyError (Record × DB × List String) :=
  r.saveWithCommit db DB.commitInsert

/-- `Record.__init__`: validates the text, wraps the tags (empty when the
argument is omitted or empty), stores `note_id`, and performs the private
save exactly when `not self.note_id` — i.e. when `note_id` is None or 0. -/
def Record.init (text : String) (tags : Option (List String))
    (note_id : Option Int) (db : DB) : Except PyError (Record × DB × List String) :=
  match Text.make text with
  | none => .error (.validationError "invalid text")
  | some t =>
    match wrapTags (tags.getD []) with
    | .error e => .error e
    | .ok tl =>
      let r : Record := { text := .valid t, tags := tl, note_id := note_id }
      if truthyId r.note_id then
        .ok (r, db, [])
      else
        r.save db

/-- `Record.replace_text`: assigns the raw string to `self.text` (no Text
re-wrapping) and updates the `note` column of every row whose id equals
`note_id`; never raises. -/
def Record.replace_text (r : Record) (new_text : String) (db : DB) : Record × DB :=
  let r2 : Record := { r with text := .raw new_text }
  (r2,
   { db with rows := db.rows.map (fun row =>
       if idMatches r2.note_id row.id then { row with note := new_text } else row) })

/-- `Record.add_tags`: wraps each new tag (a validation failure propagates),
extends the in-memory tag list, re-serializes the full list to JSON and
updates the `tags` column of every row whose id equals `note_id`. -/
def Record.add_tags (r : Record) (new_tags : List String) (db : DB) :
    Except PyError (Record × DB) :=
  match wrapTags new_tags with
  | .error e => .error e
  | .ok wrapped =>
    let r2 : Record := { r with tags := r.tags ++ wrapped }
    let str_tags := jsonDumps (r2.tags.map Tag.value)
    .ok (r2,
      { db with rows := db.rows.map (fun row =>
          if idMatches r2.note_id row.id then { row with tags := str_tags } else row) })

/-- `Record.remove_record`: deletes every row whose id equals `note_id`; the
in-memory object is not modified. -/
def Record.remove_record (r : Record) (db : DB) : Record × DB :=
  (r, { db with rows := db.rows.filter (fun row => !(idMatches r.note_id row.id)) })

/-- `Record.format_record`: joins the tag values with a comma and a space
(an en dash when there are no tags) and interpolates `self.text.value`; after
`replace_text` the text attribute is a raw string and the access raises
AttributeError. -/
def Record.format_record (r : Record) : Except PyError String :=
  match r.text.valueE with
  | .error e => .error e
  | .ok noteVal =>
    let tagsStr := if r.tags.isEmpty then "–"
      else String.intercalate ", " (r.tags.map (fun x => x.value))
    .ok ("Tags: " ++ tagsStr ++ "\n\tNote: " ++ noteVal ++ "\n")

end NotesRecord

namespace NotesRecord

/-! Theorems checking the frozen claims against the embedding. -/

/-- C1: the claim states the duplicate-note failure carries exactly the
message "A note with this text already exists. To change an existing note,
use the change-note command."  Counterexample: inserting "hello" twice makes
the second construction fail with the message the source actually builds
(two adjacent f-strings concatenated without a space, command in angle
brackets), which differs from the message the claim states. -/
theorem C1_counterexample :
    (Record.init "hello" none none DB.empty).map (fun x => x.2.1) =
      .ok { rows := [{ id := 1, note := "hello", tags := "[]" }], nextId := 2 }
    ∧ Record.init "hello" none none
        { rows := [{ id := 1, note := "hello", tags := "[]" }], nextId := 2 } =
        .error (.valueError duplicateNoteMsg)
    ∧ duplicateNoteMsg ≠ specDuplicateNoteMsg := by
  refine ⟨rfl, rfl, ?_⟩
  decide

/-- C1 amended: if the commit during the initial insert violates the
uniqueness constraint on the note column, the operation fails with a
ValueError (the DuplicateNoteError of the spec) carrying exactly the message
"A note with this text already exists.To change an existing note, use the
<change-note> command." (no space between the sentences, command name in
angle brackets), and no new database state is produced, so the previously
inserted row is left untouched. -/
theorem C1_amended (text : String) (tags : Option (List String)) (tl : List Tag)
    (db : DB)
    (htext : text.isEmpty = false)
    (htags : wrapTags (tags.getD []) = .ok tl)
    (hdup : db.rows.any (fun row => row.note == text) = true) :
    Record.init text tags none db = .error (.valueError duplicateNoteMsg) := by
  simp [Record.init, Text.make, htext, htags, truthyId, Record.save,
        Record.saveWithCommit, TextField.valueE, DB.commitInsert, hdup]

/-- C1 witness: the amended theorem applied at text "hello" against a table
already holding a row with note "hello". -/
theorem C1_witness :
    ("hello" : String).isEmpty = false
    ∧ wrapTags ((none : Option (List String)).getD []) = .ok []
    ∧ (({ rows := [{ id := 1, note := "hello", tags := "[]" }], nextId := 2 } : DB)).rows.any
        (fun row => row.note == "hello") = true
    ∧ Record.init "hello" none none
        { rows := [{ id := 1, note := "hello", tags := "[]" }], nextId := 2 } =
        .error (.valueError duplicateNoteMsg) :=
  ⟨rfl, rfl, rfl,
   C1_amended "hello" none []
     { rows := [{ id := 1, note := "hello", tags := "[]" }], nextId := 2 }
     rfl rfl rfl⟩

/-- C2: constructing a Record without an identifier, with valid text whose
value is not already stored and with validly wrapping tags, appends exactly
one row, sets `note_id` to the freshly assigned identifier, and the stored
row has `note` equal to the validated text value and `tags` equal to the
JSON encoding of the tag values. -/
theorem C2_insert_success (text : String) (tags : Option (List String))
    (tl : List Tag) (db : DB)
    (htext : text.isEmpty = false)
    (htags : wrapTags (tags.getD []) = .ok tl)
    (hfresh : db.rows.any (fun row => row.note == text) = false) :
    Record.init text tags none db =
      .ok ({ text := .valid ⟨text⟩, tags := tl, note_id := some db.nextId },
           { rows := db.rows ++
               [{ id := db.nextId, note := text,
                  tags := jsonDumps (tl.map Tag.value) }],
             nextId := db.nextId + 1 },
           []) := by
  simp [Record.init, Text.make, htext, htags, truthyId, Record.save,
        Record.saveWithCommit, TextField.valueE, DB.commitInsert, hfresh]

/-- C2 witness: the insert theorem applied at text "hi" with tag "a" on the
empty database. -/
theorem C2_witness :
    ("hi" : String).isEmpty = false
    ∧ wrapTags ((some ["a"] : Option (List String)).getD []) = .ok [⟨"a"⟩]
    ∧ DB.empty.rows.any (fun row => row.note == "hi") = false
    ∧ Record.init "hi" (some ["a"]) none DB.empty =
        .ok ({ text := .valid ⟨"hi"⟩, tags := [⟨"a"⟩], note_id := some 1 },
             { rows := [{ id := 1, note := "hi", tags := jsonDumps ["a"] }],
               nextId := 2 },
             []) :=
  ⟨rfl, rfl, rfl, C2_insert_success "hi" (some ["a"]) [⟨"a"⟩] DB.empty rfl rfl rfl⟩

/-- C3: the claim states that whenever a `note_id` argument is supplied, no
save is performed.  Counterexample: the guard is Python truthiness
(`if not self.note_id`), so supplying `note_id = 0` still saves — the
construction on the empty database inserts a row and even overwrites the
supplied identifier with the freshly assigned id 1. -/
theorem C3_counterexample :
    Record.init "hello" none (some 0) DB.empty =
      .ok ({ text := .valid ⟨"hello"⟩, tags := [], note_id := some 1 },
           { rows := [{ id := 1, note := "hello", tags := "[]" }], nextId := 2 },
           []) := rfl

/-- C3 amended: for every construction in which a truthy (non-zero)
`note_id` argument is supplied, no save is performed: the constructor only
wraps text and tags and records the identifier, returning the database
unchanged and issuing no statement. -/
theorem C3_amended (text : String) (tags : Option (List String)) (tl : List Tag)
    (i : Int) (db : DB)
    (htext : text.isEmpty = false)
    (htags : wrapTags (tags.getD []) = .ok tl)
    (hi : i ≠ 0) :
    Record.init text tags (some i) db =
      .ok ({ text := .valid ⟨text⟩, tags := tl, note_id := some i }, db, []) := by
  simp [Record.init, Text.make, htext, htags, truthyId, hi]

/-- C3 witness: the amended theorem applied with identifier 5 on the empty
database. -/
theorem C3_witness :
    ("hello" : String).isEmpty = false
    ∧ wrapTags ((none : Option (List String)).getD []) = .ok []
    ∧ (5 : Int) ≠ 0
    ∧ Record.init "hello" none (some 5) DB.empty =
        .ok ({ text := .valid ⟨"hello"⟩, tags := [], note_id := some 5 },
             DB.empty, []) :=
  ⟨rfl, rfl, by decide, C3_amended "hello" none [] 5 DB.empty rfl rfl (by decide)⟩

end NotesRecord

namespace NotesRecord

/-- An UPDATE or DELETE whose WHERE clause `ModelNotes.id == note_id` matches
no row leaves the table unchanged. -/
theorem map_update_nomatch (nid : Option Int) (rows : List ModelNotesRow)
    (f : ModelNotesRow → ModelNotesRow)
    (h : ∀ row ∈ rows, idMatches nid row.id = false) :
    rows.map (fun row => if idMatches nid row.id then f row else row) = rows := by
  calc rows.map (fun row => if idMatches nid row.id then f row else row)
      = rows.map id := List.map_congr_left (fun a ha => by simp [h a ha])
    _ = rows := List.map_id rows

/-- C4: `add_tags` appends the wrapped new tags to the in-memory sequence
(never replaces, keeps order and duplicates) and sets the `tags` column of
the row identified by `note_id` to the JSON encoding of the full current
sequence, leaving every other row unchanged. -/
theorem C4_add_tags_sync (r : Record) (i : Int) (new_tags : List String)
    (wl : List Tag) (db : DB)
    (hid : r.note_id = some i)
    (hwrap : wrapTags new_tags = .ok wl) :
    Record.add_tags r new_tags db =
      .ok ({ r with tags := r.tags ++ wl },
           { db with rows := db.rows.map (fun row =>
               if i == row.id then
                 { row with tags := jsonDumps ((r.tags ++ wl).map Tag.value) }
               else row) }) := by
  simp [Record.add_tags, hwrap, idMatches, hid]

/-- C4 witness: `add_tags ["a"]` then `add_tags ["b"]` on a persisted record
stores tags `["a"]` and then `["a", "b"]` (append, in order). -/
theorem C4_witness :
    Record.add_tags { text := .valid ⟨"hello"⟩, tags := [], note_id := some 1 } ["a"]
        { rows := [{ id := 1, note := "hello", tags := "[]" }], nextId := 2 } =
      .ok ({ text := .valid ⟨"hello"⟩, tags := [⟨"a"⟩], note_id := some 1 },
           { rows := [{ id := 1, note := "hello", tags := "[\"a\"]" }], nextId := 2 })
    ∧ Record.add_tags { text := .valid ⟨"hello"⟩, tags := [⟨"a"⟩], note_id := some 1 } ["b"]
        { rows := [{ id := 1, note := "hello", tags := "[\"a\"]" }], nextId := 2 } =
      .ok ({ text := .valid ⟨"hello"⟩, tags := [⟨"a"⟩, ⟨"b"⟩], note_id := some 1 },
           { rows := [{ id := 1, note := "hello", tags := "[\"a\", \"b\"]" }], nextId := 2 }) := by
  constructor
  · exact (C4_add_tags_sync _ 1 ["a"] [⟨"a"⟩] _ rfl rfl).trans (by rfl)
  · exact (C4_add_tags_sync _ 1 ["b"] [⟨"b"⟩] _ rfl rfl).trans (by rfl)

/-- C5: `replace_text` updates only the `note` column of the row identified
by `note_id` (its `id` and `tags` columns are untouched) and leaves every
other row unchanged; in memory the text attribute becomes the raw string. -/
theorem C5_replace_text_frame (r : Record) (i : Int) (new_text : String) (db : DB)
    (hid : r.note_id = some i) :
    Record.replace_text r new_text db =
      ({ r with text := .raw new_text },
       { db with rows := db.rows.map (fun row =>
           if i == row.id then { row with note := new_text } else row) }) := by
  simp [Record.replace_text, idMatches, hid]

/-- C5 witness: replacing the text of the record backing row 1 rewrites only
that row's `note` column; its tags and the unrelated row 2 are unchanged. -/
theorem C5_witness :
    ({ text := .valid ⟨"old"⟩, tags := [⟨"a"⟩], note_id := some 1 } : Record).note_id = some 1
    ∧ Record.replace_text { text := .valid ⟨"old"⟩, tags := [⟨"a"⟩], note_id := some 1 } "new"
        { rows := [{ id := 1, note := "old", tags := "[\"a\"]" },
                   { id := 2, note := "other", tags := "[]" }], nextId := 3 } =
      ({ text := .raw "new", tags := [⟨"a"⟩], note_id := some 1 },
       { rows := [{ id := 1, note := "new", tags := "[\"a\"]" },
                  { id := 2, note := "other", tags := "[]" }], nextId := 3 }) :=
  ⟨rfl, (C5_replace_text_frame _ 1 "new" _ rfl).trans (by rfl)⟩

/-- C6: on a Record whose `note_id` matches no stored row (unset after a
silent insert failure, or the row deleted), `replace_text` leaves the
database unchanged and `add_tags` (with validly wrapping tags) returns
normally with the database unchanged — the updates match zero rows and no
exception is raised. -/
theorem C6_dangling_noop (r : Record) (new_text : String) (new_tags : List String)
    (wl : List Tag) (db : DB)
    (hnomatch : ∀ row ∈ db.rows, idMatches r.note_id row.id = false)
    (hwrap : wrapTags new_tags = .ok wl) :
    (Record.replace_text r new_text db).2 = db
    ∧ Record.add_tags r new_tags db = .ok ({ r with tags := r.tags ++ wl }, db) := by
  constructor
  · simp only [Record.replace_text]
    rw [map_update_nomatch r.note_id db.rows _ hnomatch]
  · simp only [Record.add_tags, hwrap]
    rw [map_update_nomatch r.note_id db.rows _ hnomatch]

/-- C6 witness: with `note_id` still unset (None) and a one-row table,
`replace_text` and `add_tags` both leave the table as it was and return
without error. -/
theorem C6_witness :
    (∀ row ∈ ({ rows := [{ id := 1, note := "n", tags := "[]" }], nextId := 2 } : DB).rows,
       idMatches (none : Option Int) row.id = false)
    ∧ wrapTags ["t"] = .ok [⟨"t"⟩]
    ∧ (Record.replace_text { text := .valid ⟨"n"⟩, tags := [], note_id := none } "x"
         { rows := [{ id := 1, note := "n", tags := "[]" }], nextId := 2 }).2 =
       { rows := [{ id := 1, note := "n", tags := "[]" }], nextId := 2 }
    ∧ Record.add_tags { text := .valid ⟨"n"⟩, tags := [], note_id := none } ["t"]
         { rows := [{ id := 1, note := "n", tags := "[]" }], nextId := 2 } =
       .ok ({ text := .valid ⟨"n"⟩, tags := [⟨"t"⟩], note_id := none },
            { rows := [{ id := 1, note := "n", tags := "[]" }], nextId := 2 }) := by
  have h := C6_dangling_noop { text := .valid ⟨"n"⟩, tags := [], note_id := none }
    "x" ["t"] [⟨"t"⟩]
    { rows := [{ id := 1, note := "n", tags := "[]" }], nextId := 2 }
    (by decide) rfl
  exact ⟨by decide, rfl, h.1, h.2⟩

/-- C7: `format_record` is a pure function of the record; on a record with
tag values x and y and text value hello it returns exactly
"Tags: x, y\n\tNote: hello\n", and on a record with no tags it returns
"Tags: –\n\tNote: hello\n" with the en dash placeholder. -/
theorem C7_format_record (nid1 nid2 : Option Int) :
    Record.format_record { text := .valid ⟨"hello"⟩, tags := [⟨"x"⟩, ⟨"y"⟩], note_id := nid1 } =
      .ok "Tags: x, y\n\tNote: hello\n"
    ∧ Record.format_record { text := .valid ⟨"hello"⟩, tags := [], note_id := nid2 } =
      .ok "Tags: –\n\tNote: hello\n" :=
  ⟨rfl, rfl⟩

end NotesRecord

namespace NotesRecord

/-- C8: when the commit during the initial insert raises an IntegrityError
whose origin is not the note-uniqueness violation, the save prints the error
(it appears in the log), raises nothing, and falls through to
`self.note_id = record.id`, which leaves the identifier unset (None, the id
of the never-flushed pending row); the database is unchanged. -/
theorem C8_silent_integrity (r : Record) (t : Text) (db : DB) (orig : String)
    (htext : r.text = .valid t)
    (horig : orig ≠ uniqueConstraintOrigMsg) :
    Record.saveWithCommit r db (fun _ _ _ => .error orig) =
      .ok ({ r with note_id := none }, db, [orig]) := by
  simp [Record.saveWithCommit, htext, TextField.valueE, horig]

/-- C8 witness: a NOT NULL integrity failure injected into the commit is
logged, not raised, and the record comes back with `note_id` unset. -/
theorem C8_witness :
    ({ text := .valid ⟨"a"⟩, tags := [], note_id := none } : Record).text = .valid ⟨"a"⟩
    ∧ ("NOT NULL constraint failed: notes.note" : String) ≠ uniqueConstraintOrigMsg
    ∧ Record.saveWithCommit { text := .valid ⟨"a"⟩, tags := [], note_id := none } DB.empty
        (fun _ _ _ => .error "NOT NULL constraint failed: notes.note") =
      .ok ({ text := .valid ⟨"a"⟩, tags := [], note_id := none }, DB.empty,
           ["NOT NULL constraint failed: notes.note"]) :=
  ⟨rfl, by decide,
   (C8_silent_integrity { text := .valid ⟨"a"⟩, tags := [], note_id := none } ⟨"a"⟩
      DB.empty "NOT NULL constraint failed: notes.note" rfl (by decide)).trans (by rfl)⟩

/-- C9: `remove_record` deletes exactly the rows whose id equals `note_id`
(afterwards no row with that identifier remains), leaves the in-memory
object unchanged, and any later mutation — `replace_text` or `add_tags` —
matches zero rows and silently no-ops on the database. -/
theorem C9_remove_record (r : Record) (i : Int) (db : DB)
    (hid : r.note_id = some i) :
    (Record.remove_record r db).1 = r
    ∧ (Record.remove_record r db).2.rows = db.rows.filter (fun row => !(i == row.id))
    ∧ (Record.remove_record r db).2.rows.all (fun row => !(i == row.id)) = true
    ∧ (∀ s, (Record.replace_text r s (Record.remove_record r db).2).2 =
         (Record.remove_record r db).2)
    ∧ (∀ ts wl, wrapTags ts = .ok wl →
         Record.add_tags r ts (Record.remove_record r db).2 =
           .ok ({ r with tags := r.tags ++ wl }, (Record.remove_record r db).2)) := by
  have hrows : (Record.remove_record r db).2.rows =
      db.rows.filter (fun row => !(i == row.id)) := by
    simp [Record.remove_record, idMatches, hid]
  have hall : ∀ row ∈ (Record.remove_record r db).2.rows,
      idMatches r.note_id row.id = false := by
    intro row hrow
    rw [hrows] at hrow
    have := (List.mem_filter.mp hrow).2
    rw [hid]
    simpa [idMatches] using this
  refine ⟨rfl, hrows, ?_, ?_, ?_⟩
  · rw [List.all_eq_true]
    intro row hrow
    have := hall row hrow
    rw [hid] at this
    simpa [idMatches] using this
  · intro s
    simp only [Record.replace_text]
    rw [map_update_nomatch r.note_id (Record.remove_record r db).2.rows _ hall]
  · intro ts wl hw
    simp only [Record.add_tags, hw]
    rw [map_update_nomatch r.note_id (Record.remove_record r db).2.rows _ hall]

/-- C9 witness: deleting the record backing row 1 from a two-row table
leaves only row 2, keeps the in-memory object intact, and later
`replace_text` and `add_tags` calls leave the table untouched. -/
theorem C9_witness :
    (Record.remove_record { text := .valid ⟨"n"⟩, tags := [], note_id := some 1 }
       { rows := [{ id := 1, note := "n", tags := "[]" },
                  { id := 2, note := "m", tags := "[]" }], nextId := 3 }).1 =
      { text := .valid ⟨"n"⟩, tags := [], note_id := some 1 }
    ∧ (Record.remove_record { text := .valid ⟨"n"⟩, tags := [], note_id := some 1 }
         { rows := [{ id := 1, note := "n", tags := "[]" },
                    { id := 2, note := "m", tags := "[]" }], nextId := 3 }).2 =
      { rows := [{ id := 2, note := "m", tags := "[]" }], nextId := 3 }
    ∧ (Record.replace_text { text := .valid ⟨"n"⟩, tags := [], note_id := some 1 } "x"
         { rows := [{ id := 2, note := "m", tags := "[]" }], nextId := 3 }).2 =
      { rows := [{ id := 2, note := "m", tags := "[]" }], nextId := 3 }
    ∧ Record.add_tags { text := .valid ⟨"n"⟩, tags := [], note_id := some 1 } ["t"]
        { rows := [{ id := 2, note := "m", tags := "[]" }], nextId := 3 } =
      .ok ({ text := .valid ⟨"n"⟩, tags := [⟨"t"⟩], note_id := some 1 },
           { rows := [{ id := 2, note := "m", tags := "[]" }], nextId := 3 }) := by
  have h := C9_remove_record { text := .valid ⟨"n"⟩, tags := [], note_id := some 1 } 1
    { rows := [{ id := 1, note := "n", tags := "[]" },
               { id := 2, note := "m", tags := "[]" }], nextId := 3 } rfl
  exact ⟨h.1, by rfl, h.2.2.2.1 "x", (h.2.2.2.2 ["t"] [⟨"t"⟩] rfl).trans (by rfl)⟩

/-- C10: `replace_text` stores the raw string in the text attribute instead
of a validated Text value, so a later `format_record`, which reads
`text.value`, raises AttributeError instead of returning a formatted
string. -/
theorem C10_replace_breaks_format (r : Record) (new_text : String) (db : DB) :
    ((Record.replace_text r new_text db).1).text = .raw new_text
    ∧ ((Record.replace_text r new_text db).1).format_record =
      .error (.attributeError "str object has no attribute value") :=
  ⟨rfl, rfl⟩

end NotesRecord
